import Mathlib

/-!
Shallow embedding of `src/sine_wave_generator/sine_wave_generator.py`
(class `SineWaveGenerator`), the canonical variant of the sine-wave
generator.  Floating-point sample values are modelled as real numbers;
configuration values that the code only compares and mixes with
rational arithmetic (sample rate, frequencies, amplitude) are modelled
as rationals, cast to `ℝ` where they enter the waveform formulas.
Python machine integers are modelled as `ℤ`/`ℕ` (the code never
overflows them).  Exceptions are modelled with `Except`; numpy slice
assignments keep their clamping/broadcast semantics.
-/

namespace SWG

/-- Python `%` on floats with the divisor positive:
`x % p = x - p * floor (x / p)`. -/
noncomputable def pymod (x p : ℝ) : ℝ := x - p * ⌊x / p⌋

/-- Python `int(...)` applied to a rational value: truncation toward zero. -/
def pyInt (x : ℚ) : ℤ := if 0 ≤ x then ⌊x⌋ else ⌈x⌉

/-- numpy scalar broadcast `a[:n] = v`: the first `min n a.length`
entries are overwritten with `v` (the slice clamps, a scalar always
broadcasts). -/
def overwriteFirst (xs : List ℝ) (n : ℕ) (v : ℝ) : List ℝ :=
  List.replicate (min n xs.length) v ++ xs.drop n

/-- Glitch kinds of the `GlitchType` enum. -/
inductive GlitchType where
  | NONE
  | DROPOUT
  | SKIP
  | FULLSCALE
deriving DecidableEq, Repr

/-- Errors the embedded code can raise. -/
inductive PyError where
  /-- `ValueError` raised by a parameter check. -/
  | invalidParameter
  /-- numpy `ValueError`: could not broadcast (slice-assignment length
  mismatch). -/
  | broadcastError
  /-- `IndexError`: indexing an empty array. -/
  | indexError
  /-- `RuntimeError("Audio thread is already running")`. -/
  | alreadyRunning
deriving DecidableEq, Repr

/-- The mutable attributes of a `SineWaveGenerator` instance (`self`).
`audio_thread` is `none` when no thread object is stored and
`some alive` otherwise, where `alive` models `Thread.is_alive()`. -/
@[ext]
structure GenState where
  sample_rate : ℚ
  frequencies : List ℚ
  amplitude : ℚ
  channels : ℕ
  bitdepth : ℕ
  chunk_size : ℕ
  thetas : List ℝ
  glitch_type : GlitchType
  glitch_size : ℕ
  glitch_timer : ℤ
  random_glitch_interval : Bool
  glitch_interval_range : ℚ × ℚ
  base_glitch_interval_chunks : ℤ
  next_glitch_chunks : ℤ
  exit_event : Bool
  blocking : Bool
  audio_thread : Option Bool

/-- `Δθ = 2πf / fs` for one frequency (`delta_theta` in
`_generate_sines`). -/
noncomputable def dtheta (st : GenState) (f : ℚ) : ℝ :=
  2 * Real.pi * (f : ℝ) / (st.sample_rate : ℝ)

/-- `_generate_sines(num_samples)`: interleaved samples
`amplitude * sin(theta_c + n * Δθ_c)` (sample-major, channel-minor, the
`np.column_stack(...).flatten()` order) together with the updated state,
whose phases are wrapped with `% (2π)`. -/
noncomputable def generateSines (st : GenState) (num_samples : ℕ) :
    List ℝ × GenState :=
  let pairs := st.thetas.zip st.frequencies
  let samples := (List.range num_samples).flatMap
    (fun n => pairs.map
      (fun p => (st.amplitude : ℝ) * Real.sin (p.1 + n * dtheta st p.2)))
  let newThetas := pairs.map
    (fun p => pymod (p.1 + num_samples * dtheta st p.2) (2 * Real.pi))
  (samples, { st with thetas := newThetas })

/-- `_set_next_glitch_interval()`.  The value drawn by
`random.uniform(min, max)` is supplied by the oracle argument
`rand_seconds`; with a fixed interval it is ignored. -/
def setNextGlitchInterval (rand_seconds : ℚ) (st : GenState) : GenState :=
  if st.random_glitch_interval then
    { st with next_glitch_chunks := pyInt (rand_seconds * st.sample_rate / st.chunk_size) }
  else
    { st with next_glitch_chunks := st.base_glitch_interval_chunks }

/-- `_generate_chunk()`.  `rand_seconds` is the oracle for the random
interval draw used when a glitch fires.  The SKIP branch models the two
numpy slice assignments
`interleaved_chunk[:-s] = interleaved_chunk[s:]` and
`interleaved_chunk[-len(new_samples):] = new_samples` with python's
negative-index slicing (`-0` selects from index `0`) and numpy's rule
that an array slice assignment requires equal lengths. -/
noncomputable def generateChunk (rand_seconds : ℚ) (st : GenState) :
    Except PyError (List ℝ) × GenState :=
  let res := generateSines st st.chunk_size
  let chunk := res.1
  let st1 := res.2
  if st1.glitch_timer ≥ st1.next_glitch_chunks then
    let st2 := setNextGlitchInterval rand_seconds { st1 with glitch_timer := 0 }
    match st2.glitch_type with
    | GlitchType.DROPOUT =>
        (Except.ok (overwriteFirst chunk (st2.channels * st2.glitch_size) 0), st2)
    | GlitchType.SKIP =>
        let s := st2.channels * st2.glitch_size
        let N := chunk.length
        -- `interleaved_chunk[:-s]` has length `0` when `s = 0`, else `N - min s N`;
        -- `interleaved_chunk[s:]` has length `N - min s N`.
        if s = 0 ∧ N ≠ 0 then (Except.error PyError.broadcastError, st2)
        else
          let chunk1 := (chunk.drop s).take (N - s) ++ chunk.drop (N - s)
          let res2 := generateSines st2 st2.glitch_size
          let new_samples := res2.1
          let st3 := res2.2
          let m := new_samples.length
          -- `interleaved_chunk[-m:]` has length `N` when `m = 0`, else `min m N`.
          if (if m = 0 then N else min m N) = m then
            (Except.ok (chunk1.take (N - m) ++ new_samples), st3)
          else (Except.error PyError.broadcastError, st3)
    | GlitchType.FULLSCALE =>
        match chunk with
        | [] => (Except.error PyError.indexError, st2)
        | x :: _ =>
            let fs_sample : ℝ := if 0 ≤ x then -1 else 1
            (Except.ok (overwriteFirst chunk (st2.channels * st2.glitch_size) fs_sample), st2)
    | GlitchType.NONE => (Except.ok chunk, st2)
  else
    (Except.ok chunk, { st1 with glitch_timer := st1.glitch_timer + 1 })

/-- The frequency validation loop shared by `__init__` and
`set_frequencies`: raises `ValueError` when a frequency is non-positive
or strictly exceeds the Nyquist limit `sample_rate / 2`. -/
def checkFrequencies (sample_rate : ℚ) : List ℚ → Except PyError Unit
  | [] => Except.ok ()
  | f :: rest =>
      if f ≤ 0 then Except.error PyError.invalidParameter
      else if f > sample_rate / 2 then Except.error PyError.invalidParameter
      else checkFrequencies sample_rate rest

/-- `__init__`.  `frequencies = none` models passing `None` (defaulted
to `[440.0]`).  `rand_seconds` is the oracle for the random interval
draw made by the `_set_next_glitch_interval` call at the end of
construction.  Python's `channels <= 0` and `chunk_size <= 0` checks
become `= 0` on `ℕ`. -/
def init (sample_rate : ℚ) (frequencies : Option (List ℚ)) (channels : ℕ)
    (amplitude : ℚ) (bitdepth : ℕ) (chunk_size : ℕ)
    (glitch_type : GlitchType) (glitch_size : ℕ) (blocking : Bool)
    (random_glitch_interval : Bool) (glitch_interval_range : ℚ × ℚ)
    (rand_seconds : ℚ) : Except PyError GenState :=
  if sample_rate ≤ 0 then Except.error PyError.invalidParameter
  else if ¬ (8000 ≤ sample_rate ∧ sample_rate ≤ 192000) then
    Except.error PyError.invalidParameter
  else
    let freqs := frequencies.getD [440]
    match checkFrequencies sample_rate freqs with
    | Except.error e => Except.error e
    | Except.ok _ =>
      if ¬ (0 ≤ amplitude ∧ amplitude ≤ 1) then Except.error PyError.invalidParameter
      else if channels = 0 then Except.error PyError.invalidParameter
      else if ¬ (bitdepth = 16 ∨ bitdepth = 24 ∨ bitdepth = 32) then
        Except.error PyError.invalidParameter
      else if chunk_size = 0 ∨ chunk_size > 8192 then
        Except.error PyError.invalidParameter
      else if glitch_interval_range.1 ≤ 0 ∨ glitch_interval_range.2 ≤ 0 then
        Except.error PyError.invalidParameter
      else if glitch_interval_range.1 > glitch_interval_range.2 then
        Except.error PyError.invalidParameter
      else
        Except.ok (setNextGlitchInterval rand_seconds
          { sample_rate := sample_rate
            frequencies := freqs
            amplitude := amplitude
            channels := if freqs.length ≠ channels then freqs.length else channels
            bitdepth := bitdepth
            chunk_size := chunk_size
            thetas := List.replicate freqs.length 0
            glitch_type := glitch_type
            glitch_size := glitch_size
            glitch_timer := 0
            random_glitch_interval := random_glitch_interval
            glitch_interval_range := glitch_interval_range
            base_glitch_interval_chunks :=
              pyInt (1 * sample_rate / chunk_size)
            next_glitch_chunks := 0
            exit_event := false
            blocking := blocking
            audio_thread := none })

/-- `set_amplitude`. -/
def set_amplitude (amplitude : ℚ) (st : GenState) :
    Except PyError Unit × GenState :=
  if ¬ (0 ≤ amplitude ∧ amplitude ≤ 1) then
    (Except.error PyError.invalidParameter, st)
  else (Except.ok (), { st with amplitude := amplitude })

/-- `set_frequencies`: validates, then replaces the frequency list and
resets the phase accumulators.  (It does not touch `channels`.) -/
def set_frequencies (frequencies : List ℚ) (st : GenState) :
    Except PyError Unit × GenState :=
  match checkFrequencies st.sample_rate frequencies with
  | Except.error e => (Except.error e, st)
  | Except.ok _ =>
      (Except.ok (),
        { st with frequencies := frequencies,
                  thetas := List.replicate frequencies.length 0 })

/-- `start(blocking)`: raises `RuntimeError` when a live audio thread
exists, otherwise clears the exit event and spawns a new (alive)
thread.  On the error path `self` is untouched. -/
def start (blocking : Option Bool) (st : GenState) :
    Except PyError Unit × GenState :=
  if st.audio_thread = some true then
    (Except.error PyError.alreadyRunning, st)
  else
    let st1 := match blocking with
      | some b => { st with blocking := b }
      | none => st
    (Except.ok (), { st1 with exit_event := false, audio_thread := some true })

/-- `_generate_clean_samples(num_samples)`: textually the same
computation as `_generate_sines` (the source duplicates the code). -/
noncomputable def generateCleanSamples (st : GenState) (num_samples : ℕ) :
    List ℝ × GenState :=
  let pairs := st.thetas.zip st.frequencies
  let samples := (List.range num_samples).flatMap
    (fun n => pairs.map
      (fun p => (st.amplitude : ℝ) * Real.sin (p.1 + n * dtheta st p.2)))
  let newThetas := pairs.map
    (fun p => pymod (p.1 + num_samples * dtheta st p.2) (2 * Real.pi))
  (samples, { st with thetas := newThetas })

/-- The `for _ in range(num_chunks)` loop of
`_generate_samples_with_glitches`: generates `count` chunks, writing
each into the pre-allocated buffer of `total` entries
(`all_samples[offset : offset + len] = chunk` fails to broadcast when
the chunk overruns the buffer; `offset` is the length of what has been
written, modelled as the accumulated list).  `k` indexes the oracle for
the random interval draws. -/
noncomputable def glitchLoop (randSeq : ℕ → ℚ) (total : ℕ) :
    ℕ → ℕ → List ℝ → GenState → Except PyError (List ℝ) × GenState
  | _, 0, acc, st => (Except.ok acc, st)
  | k, count + 1, acc, st =>
      match generateChunk (randSeq k) st with
      | (Except.error e, st1) => (Except.error e, st1)
      | (Except.ok chunk, st1) =>
          if acc.length + chunk.length ≤ total then
            glitchLoop randSeq total (k + 1) count (acc ++ chunk) st1
          else (Except.error PyError.broadcastError, st1)

/-- `_generate_samples_with_glitches(num_samples)`.  The final partial
block temporarily overrides `chunk_size`, restoring it in a
`try/finally` (so also on the error path).  The returned list is the
written prefix of the buffer. -/
noncomputable def generateSamplesWithGlitches (randSeq : ℕ → ℚ)
    (st : GenState) (num_samples : ℕ) : Except PyError (List ℝ) × GenState :=
  let num_chunks := num_samples / st.chunk_size
  let remaining_samples := num_samples % st.chunk_size
  let total := num_samples * st.channels
  match glitchLoop randSeq total 0 num_chunks [] st with
  | (Except.error e, st1) => (Except.error e, st1)
  | (Except.ok acc, st1) =>
      if remaining_samples > 0 then
        let original_chunk_size := st1.chunk_size
        match generateChunk (randSeq num_chunks) { st1 with chunk_size := remaining_samples } with
        | (Except.error e, st2) =>
            (Except.error e, { st2 with chunk_size := original_chunk_size })
        | (Except.ok chunk, st2) =>
            let st3 := { st2 with chunk_size := original_chunk_size }
            if acc.length + chunk.length ≤ total then (Except.ok (acc ++ chunk), st3)
            else (Except.error PyError.broadcastError, st3)
      else (Except.ok acc, st1)

/-- `save_to_wav(duration, filename)`: validates the duration, computes
`num_samples = int(sample_rate * duration)` and produces the sample
sequence handed to the file sink (`reshape` + `wavfile.write` are the
out-of-scope sink). -/
noncomputable def save_to_wav (randSeq : ℕ → ℚ) (duration : ℤ)
    (st : GenState) : Except PyError (List ℝ) × GenState :=
  if duration ≤ 0 then (Except.error PyError.invalidParameter, st)
  else
    let num_samples := (pyInt (st.sample_rate * duration)).toNat
    if st.glitch_type = GlitchType.NONE then
      let res := generateCleanSamples st num_samples
      (Except.ok res.1, res.2)
    else
      generateSamplesWithGlitches randSeq st num_samples

/-- The configuration fields of a generator state other than
`chunk_size` (everything except the phase accumulators, the glitch
countdown state and the thread/lifecycle fields). -/
def cfgNoCS (st : GenState) :
    ℚ × List ℚ × ℚ × ℕ × ℕ × GlitchType × ℕ × Bool × (ℚ × ℚ) × Bool :=
  (st.sample_rate, st.frequencies, st.amplitude, st.channels, st.bitdepth,
    st.glitch_type, st.glitch_size, st.random_glitch_interval,
    st.glitch_interval_range, st.blocking)

/-- All configuration fields of a generator state. -/
def cfg (st : GenState) :
    ℕ × ℚ × List ℚ × ℚ × ℕ × ℕ × GlitchType × ℕ × Bool × (ℚ × ℚ) × Bool :=
  (st.chunk_size, cfgNoCS st)

/-- The state after `i` calls of `_generate_chunk` (the streaming
loop), with `randSeq i` the oracle for the draw a glitch in block `i`
would make. -/
noncomputable def stateAfter (randSeq : ℕ → ℚ) (st : GenState) : ℕ → GenState
  | 0 => st
  | i + 1 => (generateChunk (randSeq i) (stateAfter randSeq st i)).2

/-- The `i`-th block produced by the streaming loop. -/
noncomputable def blockAt (randSeq : ℕ → ℚ) (st : GenState) (i : ℕ) :
    Except PyError (List ℝ) :=
  (generateChunk (randSeq i) (stateAfter randSeq st i)).1

/-- The state after `i` glitch-free blocks (`_generate_sines` only). -/
noncomputable def cleanState (st : GenState) : ℕ → GenState
  | 0 => st
  | i + 1 => (generateSines (cleanState st i) (cleanState st i).chunk_size).2

/-- The `i`-th block of the glitch-free sine stream. -/
noncomputable def cleanBlock (st : GenState) (i : ℕ) : List ℝ :=
  (generateSines (cleanState st i) (cleanState st i).chunk_size).1

/-- A concrete, valid generator state (as produced by `__init__` with
`sample_rate=48000, frequencies=[440], chunk_size=4`), used to
instantiate theorems at concrete inputs. -/
def sampleState : GenState :=
  { sample_rate := 48000
    frequencies := [440]
    amplitude := 1/2
    channels := 1
    bitdepth := 32
    chunk_size := 4
    thetas := [0]
    glitch_type := GlitchType.NONE
    glitch_size := 2
    glitch_timer := 0
    random_glitch_interval := false
    glitch_interval_range := (1/2, 2)
    base_glitch_interval_chunks := 12000
    next_glitch_chunks := 12000
    exit_event := false
    blocking := true
    audio_thread := none }

/-- `sampleState` reconfigured so that a SKIP glitch fires on the next
block. -/
def skipState : GenState :=
  { sampleState with glitch_type := GlitchType.SKIP, next_glitch_chunks := 0 }

/-- `sampleState` reconfigured so that a FULLSCALE glitch fires on the
next one-sample block. -/
def fullscaleState : GenState :=
  { sampleState with
    glitch_type := GlitchType.FULLSCALE
    next_glitch_chunks := 0
    chunk_size := 1
    glitch_size := 1 }

/-- The state `__init__` builds for
`sample_rate=48000, frequencies=[440, 880], channels=2, chunk_size=1024,
glitch_type=DROPOUT, glitch_size=100` with a fixed glitch interval:
`int(1.0 * 48000 / 1024) = 46` chunks. -/
def dropoutState : GenState :=
  { sample_rate := 48000
    frequencies := [440, 880]
    amplitude := 1/2
    channels := 2
    bitdepth := 32
    chunk_size := 1024
    thetas := List.replicate 2 0
    glitch_type := GlitchType.DROPOUT
    glitch_size := 100
    glitch_timer := 0
    random_glitch_interval := false
    glitch_interval_range := (1/2, 2)
    base_glitch_interval_chunks := 46
    next_glitch_chunks := 46
    exit_event := false
    blocking := true
    audio_thread := none }

section Lemmas

open Real

lemma pymod_eq_fract {p : ℝ} (hp : p ≠ 0) (x : ℝ) :
    pymod x p = p * Int.fract (x / p) := by
  unfold pymod Int.fract
  rw [mul_sub, mul_comm p (x / p), div_mul_cancel₀ x hp]

lemma pymod_nonneg {p : ℝ} (hp : 0 < p) (x : ℝ) : 0 ≤ pymod x p := by
  rw [pymod_eq_fract hp.ne']
  exact mul_nonneg hp.le (Int.fract_nonneg _)

lemma pymod_lt {p : ℝ} (hp : 0 < p) (x : ℝ) : pymod x p < p := by
  rw [pymod_eq_fract hp.ne']
  calc p * Int.fract (x / p) < p * 1 :=
        (mul_lt_mul_left hp).mpr (Int.fract_lt_one _)
    _ = p := mul_one p

/-- `sin` does not see the `% (2π)` wrap of the phase accumulator. -/
lemma sin_pymod_add (x y : ℝ) :
    Real.sin (pymod x (2 * π) + y) = Real.sin (x + y) := by
  unfold pymod
  have h : x - 2 * π * ⌊x / (2 * π)⌋ + y
      = (x + y) - (⌊x / (2 * π)⌋ : ℤ) * (2 * π) := by ring
  rw [h, Real.sin_sub_int_mul_two_pi]

/-- Wrapping before accumulating more phase equals accumulating first
and wrapping once. -/
lemma pymod_add_left {p : ℝ} (hp : p ≠ 0) (x y : ℝ) :
    pymod (pymod x p + y) p = pymod (x + y) p := by
  rw [pymod_eq_fract hp, pymod_eq_fract hp, pymod_eq_fract hp]
  congr 1
  have h : (p * Int.fract (x / p) + y) / p
      = (x + y) / p - (⌊x / p⌋ : ℤ) := by
    unfold Int.fract
    field_simp
    ring
  rw [h, Int.fract_sub_int]

lemma zip_map_fst {α β γ : Type _} (f : α × β → γ) :
    ∀ (l1 : List α) (l2 : List β),
      ((l1.zip l2).map f).zip l2 = (l1.zip l2).map (fun p => (f p, p.2))
  | [], _ => by simp
  | _ :: _, [] => by simp
  | a :: l1, b :: l2 => by
      simp only [List.zip_cons_cons, List.map_cons]
      exact congrArg _ (zip_map_fst f l1 l2)

lemma generateSines_fst (st : GenState) (n : ℕ) :
    (generateSines st n).1 = (List.range n).flatMap
      (fun i => (st.thetas.zip st.frequencies).map
        (fun p => (st.amplitude : ℝ) * Real.sin (p.1 + i * dtheta st p.2))) := rfl

lemma generateSines_thetas (st : GenState) (n : ℕ) :
    (generateSines st n).2.thetas = (st.thetas.zip st.frequencies).map
      (fun p => pymod (p.1 + n * dtheta st p.2) (2 * π)) := rfl

@[simp] lemma generateSines_sample_rate (st : GenState) (n : ℕ) :
    (generateSines st n).2.sample_rate = st.sample_rate := rfl

@[simp] lemma generateSines_frequencies (st : GenState) (n : ℕ) :
    (generateSines st n).2.frequencies = st.frequencies := rfl

@[simp] lemma generateSines_amplitude (st : GenState) (n : ℕ) :
    (generateSines st n).2.amplitude = st.amplitude := rfl

@[simp] lemma generateSines_chunk_size (st : GenState) (n : ℕ) :
    (generateSines st n).2.chunk_size = st.chunk_size := rfl

@[simp] lemma generateSines_glitch_timer (st : GenState) (n : ℕ) :
    (generateSines st n).2.glitch_timer = st.glitch_timer := rfl

@[simp] lemma generateSines_next_glitch_chunks (st : GenState) (n : ℕ) :
    (generateSines st n).2.next_glitch_chunks = st.next_glitch_chunks := rfl

@[simp] lemma generateSines_glitch_type (st : GenState) (n : ℕ) :
    (generateSines st n).2.glitch_type = st.glitch_type := rfl

@[simp] lemma generateSines_glitch_size (st : GenState) (n : ℕ) :
    (generateSines st n).2.glitch_size = st.glitch_size := rfl

@[simp] lemma generateSines_channels (st : GenState) (n : ℕ) :
    (generateSines st n).2.channels = st.channels := rfl

@[simp] lemma dtheta_generateSines (st : GenState) (n : ℕ) (f : ℚ) :
    dtheta (generateSines st n).2 f = dtheta st f := rfl

@[simp] lemma generateSines_base (st : GenState) (n : ℕ) :
    (generateSines st n).2.base_glitch_interval_chunks
      = st.base_glitch_interval_chunks := rfl

@[simp] lemma generateSines_random (st : GenState) (n : ℕ) :
    (generateSines st n).2.random_glitch_interval
      = st.random_glitch_interval := rfl

/-- `_generate_sines` neither reads nor writes the glitch timer. -/
lemma generateSines_timer_fst (st : GenState) (t : ℤ) (n : ℕ) :
    (generateSines { st with glitch_timer := t } n).1
      = (generateSines st n).1 := rfl

/-- `_generate_sines` neither reads nor writes the glitch timer. -/
lemma generateSines_timer_snd (st : GenState) (t : ℤ) (n : ℕ) :
    (generateSines { st with glitch_timer := t } n).2
      = { (generateSines st n).2 with glitch_timer := t } := rfl

@[simp] lemma setNextGlitchInterval_channels (r : ℚ) (st : GenState) :
    (setNextGlitchInterval r st).channels = st.channels := by
  unfold setNextGlitchInterval
  split <;> rfl

@[simp] lemma setNextGlitchInterval_frequencies (r : ℚ) (st : GenState) :
    (setNextGlitchInterval r st).frequencies = st.frequencies := by
  unfold setNextGlitchInterval
  split <;> rfl

/-- With a fixed glitch interval the countdown is reset to the base
interval. -/
lemma setNextGlitchInterval_fixed (r : ℚ) (st : GenState)
    (h : st.random_glitch_interval = false) :
    setNextGlitchInterval r st
      = { st with next_glitch_chunks := st.base_glitch_interval_chunks } := by
  unfold setNextGlitchInterval
  rw [h]
  simp

lemma generateCleanSamples_thetas (st : GenState) (n : ℕ) :
    (generateCleanSamples st n).2.thetas = (st.thetas.zip st.frequencies).map
      (fun p => pymod (p.1 + n * dtheta st p.2) (2 * π)) := rfl

@[simp] lemma setNextGlitchInterval_sample_rate (r : ℚ) (st : GenState) :
    (setNextGlitchInterval r st).sample_rate = st.sample_rate := by
  unfold setNextGlitchInterval
  split <;> rfl

@[simp] lemma setNextGlitchInterval_amplitude (r : ℚ) (st : GenState) :
    (setNextGlitchInterval r st).amplitude = st.amplitude := by
  unfold setNextGlitchInterval
  split <;> rfl

@[simp] lemma setNextGlitchInterval_thetas (r : ℚ) (st : GenState) :
    (setNextGlitchInterval r st).thetas = st.thetas := by
  unfold setNextGlitchInterval
  split <;> rfl

@[simp] lemma setNextGlitchInterval_chunk_size (r : ℚ) (st : GenState) :
    (setNextGlitchInterval r st).chunk_size = st.chunk_size := by
  unfold setNextGlitchInterval
  split <;> rfl

@[simp] lemma setNextGlitchInterval_glitch_type (r : ℚ) (st : GenState) :
    (setNextGlitchInterval r st).glitch_type = st.glitch_type := by
  unfold setNextGlitchInterval
  split <;> rfl

@[simp] lemma setNextGlitchInterval_glitch_size (r : ℚ) (st : GenState) :
    (setNextGlitchInterval r st).glitch_size = st.glitch_size := by
  unfold setNextGlitchInterval
  split <;> rfl

@[simp] lemma setNextGlitchInterval_glitch_timer (r : ℚ) (st : GenState) :
    (setNextGlitchInterval r st).glitch_timer = st.glitch_timer := by
  unfold setNextGlitchInterval
  split <;> rfl

@[simp] lemma setNextGlitchInterval_base (r : ℚ) (st : GenState) :
    (setNextGlitchInterval r st).base_glitch_interval_chunks
      = st.base_glitch_interval_chunks := by
  unfold setNextGlitchInterval
  split <;> rfl

@[simp] lemma setNextGlitchInterval_random (r : ℚ) (st : GenState) :
    (setNextGlitchInterval r st).random_glitch_interval
      = st.random_glitch_interval := by
  unfold setNextGlitchInterval
  split <;> rfl

/-- `dtheta` only reads the sample rate. -/
lemma dtheta_congr {st st' : GenState} (h : st.sample_rate = st'.sample_rate)
    (f : ℚ) : dtheta st f = dtheta st' f := by
  unfold dtheta
  rw [h]

/-- `_generate_sines` only reads the phases, frequencies, amplitude and
sample rate of the state. -/
lemma generateSines_congr {st st' : GenState} (n : ℕ)
    (hθ : st.thetas = st'.thetas) (hf : st.frequencies = st'.frequencies)
    (ha : st.amplitude = st'.amplitude)
    (hr : st.sample_rate = st'.sample_rate) :
    (generateSines st n).1 = (generateSines st' n).1
    ∧ (generateSines st n).2.thetas = (generateSines st' n).2.thetas := by
  unfold generateSines dtheta
  rw [hθ, hf, ha, hr]
  exact ⟨rfl, rfl⟩

lemma length_flatMap_const {α β : Type _} (l : List α) (f : α → List β) (k : ℕ)
    (h : ∀ a, (f a).length = k) : (l.flatMap f).length = l.length * k := by
  induction l with
  | nil => simp
  | cons a l ih => simp [List.flatMap_cons, h a, ih, Nat.succ_mul, Nat.add_comm]

/-- Each call of `_generate_sines` returns `num_samples * channelCount`
interleaved samples, where the channel count is the number of
(phase, frequency) pairs. -/
lemma generateSines_length (st : GenState) (n : ℕ) :
    (generateSines st n).1.length
      = n * (st.thetas.zip st.frequencies).length := by
  rw [generateSines_fst]
  rw [length_flatMap_const _ _ (st.thetas.zip st.frequencies).length
    (fun a => List.length_map _ _)]
  rw [List.length_range]

@[simp] lemma overwriteFirst_length (xs : List ℝ) (n : ℕ) (v : ℝ) :
    (overwriteFirst xs n v).length = xs.length := by
  unfold overwriteFirst
  simp
  omega

lemma overwriteFirst_getD (xs : List ℝ) (n : ℕ) (v : ℝ) (j : ℕ)
    (h : j < min n xs.length) : (overwriteFirst xs n v).getD j 0 = v := by
  unfold overwriteFirst
  rw [List.getD_append _ _ _ _ (by simpa using h)]
  rw [List.getD_eq_getElem _ _ (by simpa using h), List.getElem_replicate]

/-- Accumulating `n2` more samples of phase on top of a wrapped
`n1`-sample phase equals one wrapped `n1 + n2` accumulation. -/
lemma pymod_phase_acc (θ dθ : ℝ) (n1 n2 : ℕ) :
    pymod (pymod (θ + n1 * dθ) (2 * π) + n2 * dθ) (2 * π)
      = pymod (θ + ((n1 : ℝ) + n2) * dθ) (2 * π) := by
  rw [pymod_add_left Real.two_pi_pos.ne']
  congr 1
  ring

/-- The sine of a wrapped phase plus additional phase. -/
lemma sin_phase_acc (θ dθ : ℝ) (n1 : ℕ) (i : ℝ) :
    Real.sin (pymod (θ + n1 * dθ) (2 * π) + i * dθ)
      = Real.sin (θ + ((n1 : ℝ) + i) * dθ) := by
  rw [sin_pymod_add]
  congr 1
  ring

/-- The phases after two consecutive `_generate_sines` calls of `n1`
and `n2` samples: each accumulator has advanced by `(n1 + n2)` samples
worth of phase, wrapped once. -/
lemma generateSines_twice_thetas (st : GenState) (n1 n2 : ℕ) :
    (generateSines (generateSines st n1).2 n2).2.thetas
      = (st.thetas.zip st.frequencies).map
          (fun p => pymod (p.1 + ((n1 : ℝ) + n2) * dtheta st p.2) (2 * π)) := by
  have hzip : (generateSines st n1).2.thetas.zip (generateSines st n1).2.frequencies
      = (st.thetas.zip st.frequencies).map
          (fun p => (pymod (p.1 + n1 * dtheta st p.2) (2 * π), p.2)) := by
    rw [generateSines_thetas, generateSines_frequencies]
    exact zip_map_fst _ st.thetas st.frequencies
  rw [generateSines_thetas ((generateSines st n1).2) n2, hzip]
  simp only [dtheta_generateSines]
  rw [List.map_map]
  apply List.map_congr_left
  intro p _
  show pymod (pymod (p.1 + n1 * dtheta st p.2) (2 * π)
        + n2 * dtheta st p.2) (2 * π)
      = pymod (p.1 + ((n1 : ℝ) + n2) * dtheta st p.2) (2 * π)
  exact pymod_phase_acc p.1 (dtheta st p.2) n1 n2

/-- When the countdown has expired with a DROPOUT glitch and a fixed
interval: the block is the clean block with its first
`channels * glitch_size` values zeroed, the timer resets and the
countdown is re-armed to the base interval. -/
lemma generateChunk_dropout_fired (r : ℚ) (st : GenState)
    (hfire : st.glitch_timer ≥ st.next_glitch_chunks)
    (hty : st.glitch_type = GlitchType.DROPOUT)
    (hrand : st.random_glitch_interval = false) :
    generateChunk r st
      = (Except.ok (overwriteFirst (generateSines st st.chunk_size).1
            (st.channels * st.glitch_size) 0),
          { (generateSines st st.chunk_size).2 with
              glitch_timer := 0
              next_glitch_chunks := st.base_glitch_interval_chunks }) := by
  simp only [generateChunk]
  set st1 : GenState := (generateSines st st.chunk_size).2 with hst1
  set chunk : List ℝ := (generateSines st st.chunk_size).1 with hchunkdef
  set st2 : GenState :=
    setNextGlitchInterval r { st1 with glitch_timer := 0 } with hst2
  have hfire1 : st1.glitch_timer ≥ st1.next_glitch_chunks := by
    rw [hst1]
    simpa using hfire
  have hty2 : st2.glitch_type = GlitchType.DROPOUT := by
    rw [hst2]
    simp [hst1, hty]
  have hst2eq : st2 =
      { st1 with
        glitch_timer := 0
        next_glitch_chunks := st.base_glitch_interval_chunks } := by
    rw [hst2, setNextGlitchInterval_fixed _ _ (by rw [hst1]; simp [hrand])]
    apply GenState.ext <;> rfl
  split
  case isFalse h => exact absurd hfire1 h
  case isTrue _ =>
    split
    case h_2 heq => rw [hty2] at heq; exact GlitchType.noConfusion heq
    case h_3 heq => rw [hty2] at heq; exact GlitchType.noConfusion heq
    case h_4 heq => rw [hty2] at heq; exact GlitchType.noConfusion heq
    case h_1 _ =>
      rw [hst2eq]
      rfl

/-- When the countdown has not expired, `_generate_chunk` returns the
clean block and just increments the timer. -/
lemma generateChunk_not_fired (r : ℚ) (st : GenState)
    (h : ¬ st.glitch_timer ≥ st.next_glitch_chunks) :
    generateChunk r st = (Except.ok (generateSines st st.chunk_size).1,
      { (generateSines st st.chunk_size).2 with
          glitch_timer := st.glitch_timer + 1 }) := by
  simp only [generateChunk]
  split
  case isTrue h1 => exact absurd h1 h
  case isFalse _ => rfl

/-- The glitch-free stream only rewrites the phases: all other fields
of the state are those of the initial state. -/
lemma cleanState_fields (st0 : GenState) : ∀ i : ℕ,
    (cleanState st0 i).channels = st0.channels
    ∧ (cleanState st0 i).glitch_size = st0.glitch_size
    ∧ (cleanState st0 i).glitch_type = st0.glitch_type
    ∧ (cleanState st0 i).random_glitch_interval = st0.random_glitch_interval
    ∧ (cleanState st0 i).base_glitch_interval_chunks
        = st0.base_glitch_interval_chunks
    ∧ (cleanState st0 i).next_glitch_chunks = st0.next_glitch_chunks
    ∧ (cleanState st0 i).glitch_timer = st0.glitch_timer
    ∧ (cleanState st0 i).chunk_size = st0.chunk_size
    ∧ (cleanState st0 i).frequencies = st0.frequencies := by
  intro i
  induction i with
  | zero => exact ⟨rfl, rfl, rfl, rfl, rfl, rfl, rfl, rfl, rfl⟩
  | succ i ih => exact ih

/-- The phase vector of the glitch-free stream keeps its length when
the generator starts with one phase per frequency. -/
lemma cleanState_thetas_len (st0 : GenState)
    (h : st0.thetas.length = st0.frequencies.length) : ∀ i : ℕ,
    (cleanState st0 i).thetas.length = st0.frequencies.length := by
  intro i
  induction i with
  | zero => exact h
  | succ i ih =>
      show (generateSines (cleanState st0 i) _).2.thetas.length = _
      rw [generateSines_thetas, List.length_map, List.length_zip, ih,
        (cleanState_fields st0 i).2.2.2.2.2.2.2.2, min_self]

/-- Timer evolution of the streaming loop for a fixed-interval DROPOUT
generator with `base = next = 46` and the timer starting at `0`: after
`i` blocks the state is the clean state with timer `i % 47`. -/
lemma dropout_stateAfter (randSeq : ℕ → ℚ) (st0 : GenState)
    (hty : st0.glitch_type = GlitchType.DROPOUT)
    (hrand : st0.random_glitch_interval = false)
    (htimer : st0.glitch_timer = 0)
    (hnext : st0.next_glitch_chunks = 46)
    (hbase : st0.base_glitch_interval_chunks = 46) : ∀ i : ℕ,
    stateAfter randSeq st0 i
      = { cleanState st0 i with glitch_timer := ((i % 47 : ℕ) : ℤ) } := by
  intro i
  induction i with
  | zero =>
      apply GenState.ext <;> first
        | rfl
        | (show st0.glitch_timer = ((0 % 47 : ℕ) : ℤ)
           rw [htimer]
           simp)
  | succ i ih =>
      obtain ⟨hch, hgs, htyi, hrdi, hbi, hni, hti, hcsi, hfri⟩ :=
        cleanState_fields st0 i
      show (generateChunk (randSeq i) (stateAfter randSeq st0 i)).2 = _
      rw [ih]
      by_cases hmod : i % 47 = 46
      · rw [generateChunk_dropout_fired (randSeq i) _
          (by dsimp only; rw [hni, hnext]; omega)
          (by dsimp only; rw [htyi, hty])
          (by dsimp only; rw [hrdi, hrand])]
        apply GenState.ext <;> first
          | rfl
          | (dsimp only; omega)
          | (show (cleanState st0 i).base_glitch_interval_chunks
                = (cleanState st0 (i + 1)).next_glitch_chunks
             rw [hbi, hbase, (cleanState_fields st0 (i + 1)).2.2.2.2.2.1,
               hnext])
      · rw [generateChunk_not_fired (randSeq i) _
          (by dsimp only; rw [hni, hnext]; omega)]
        apply GenState.ext <;> first
          | rfl
          | (dsimp only; omega)

/-- Block-level behavior of the fixed-interval DROPOUT stream: block
`i` is the clean block with its first `channels * glitch_size` samples
zeroed exactly when `i % 47 = 46`, and the untouched clean block
otherwise. -/
lemma dropout_blockAt (randSeq : ℕ → ℚ) (st0 : GenState)
    (hty : st0.glitch_type = GlitchType.DROPOUT)
    (hrand : st0.random_glitch_interval = false)
    (htimer : st0.glitch_timer = 0)
    (hnext : st0.next_glitch_chunks = 46)
    (hbase : st0.base_glitch_interval_chunks = 46) (i : ℕ) :
    (i % 47 = 46 → blockAt randSeq st0 i
        = Except.ok (overwriteFirst (cleanBlock st0 i)
            (st0.channels * st0.glitch_size) 0))
    ∧ (i % 47 ≠ 46 → blockAt randSeq st0 i
        = Except.ok (cleanBlock st0 i)) := by
  obtain ⟨hch, hgs, htyi, hrdi, hbi, hni, hti, hcsi, hfri⟩ :=
    cleanState_fields st0 i
  constructor
  · intro hmod
    show (generateChunk (randSeq i) (stateAfter randSeq st0 i)).1 = _
    rw [dropout_stateAfter randSeq st0 hty hrand htimer hnext hbase i]
    rw [generateChunk_dropout_fired (randSeq i) _
      (by dsimp only; rw [hni, hnext]; omega)
      (by dsimp only; rw [htyi, hty])
      (by dsimp only; rw [hrdi, hrand])]
    show Except.ok (overwriteFirst (cleanBlock st0 i)
        ((cleanState st0 i).channels * (cleanState st0 i).glitch_size) 0) = _
    rw [hch, hgs]
  · intro hmod
    show (generateChunk (randSeq i) (stateAfter randSeq st0 i)).1 = _
    rw [dropout_stateAfter randSeq st0 hty hrand htimer hnext hbase i]
    rw [generateChunk_not_fired (randSeq i) _
      (by dsimp only; rw [hni, hnext]; omega)]
    rfl

/-- `_generate_chunk` mutates only the phases and the glitch countdown
state: every configuration field is preserved. -/
lemma cfg_generateChunk (r : ℚ) (st : GenState) :
    cfg (generateChunk r st).2 = cfg st := by
  simp only [generateChunk]
  repeat' split
  all_goals first
    | rfl
    | (unfold setNextGlitchInterval; split <;> rfl)

/-- The chunk loop of `_generate_samples_with_glitches` preserves every
configuration field. -/
lemma cfg_glitchLoop (randSeq : ℕ → ℚ) (total : ℕ) :
    ∀ (count k : ℕ) (acc : List ℝ) (st : GenState),
      cfg (glitchLoop randSeq total k count acc st).2 = cfg st := by
  intro count
  induction count with
  | zero =>
      intro k acc st
      rfl
  | succ c ih =>
      intro k acc st
      simp only [glitchLoop]
      split
      case h_1 e st1 heq =>
        have h := cfg_generateChunk (randSeq k) st
        rw [heq] at h
        exact h
      case h_2 chunk st1 heq =>
        have h := cfg_generateChunk (randSeq k) st
        rw [heq] at h
        split
        · rw [ih]
          exact h
        · exact h

/-- `_generate_samples_with_glitches` restores `chunk_size` in its
`try/finally` (also on the error path) and touches no other
configuration field. -/
lemma cfg_generateSamplesWithGlitches (randSeq : ℕ → ℚ) (st : GenState)
    (n : ℕ) : cfg (generateSamplesWithGlitches randSeq st n).2 = cfg st := by
  simp only [generateSamplesWithGlitches]
  split
  case h_1 e st1 heq =>
    have h := cfg_glitchLoop randSeq (n * st.channels) (n / st.chunk_size)
      0 [] st
    rw [heq] at h
    exact h
  case h_2 acc st1 heq =>
    have hloop := cfg_glitchLoop randSeq (n * st.channels) (n / st.chunk_size)
      0 [] st
    rw [heq] at hloop
    have hcs : st1.chunk_size = st.chunk_size := congrArg Prod.fst hloop
    have hn1 : cfgNoCS st1 = cfgNoCS st := congrArg Prod.snd hloop
    split
    · split
      case h_1 e st2 heq2 =>
        have h2 := cfg_generateChunk (randSeq (n / st.chunk_size))
          { st1 with chunk_size := n % st.chunk_size }
        rw [heq2] at h2
        have hn2 : cfgNoCS st2 = cfgNoCS st1 := congrArg Prod.snd h2
        show (st1.chunk_size, cfgNoCS st2) = cfg st
        rw [hcs, hn2, hn1]
        rfl
      case h_2 chunk st2 heq2 =>
        have h2 := cfg_generateChunk (randSeq (n / st.chunk_size))
          { st1 with chunk_size := n % st.chunk_size }
        rw [heq2] at h2
        have hn2 : cfgNoCS st2 = cfgNoCS st1 := congrArg Prod.snd h2
        split <;>
        · show (st1.chunk_size, cfgNoCS st2) = cfg st
          rw [hcs, hn2, hn1]
          rfl
    · exact hloop

end Lemmas

section Claims

open Real

/-- C1: for every configuration and every pair of block sizes `n1`,
`n2`, calling `_generate_sines` with `n1` and then `n2` samples
produces the same concatenated interleaved sample sequence (and the
same final state) as a single call with `n1 + n2` samples — phase
continuity across block boundaries, exact in the real-number model. -/
theorem generateSines_phase_continuity (st : GenState) (n1 n2 : ℕ) :
    (generateSines st n1).1 ++ (generateSines (generateSines st n1).2 n2).1
        = (generateSines st (n1 + n2)).1
    ∧ (generateSines (generateSines st n1).2 n2).2
        = (generateSines st (n1 + n2)).2 := by
  have hzip : (generateSines st n1).2.thetas.zip (generateSines st n1).2.frequencies
      = (st.thetas.zip st.frequencies).map
          (fun p => (pymod (p.1 + n1 * dtheta st p.2) (2 * π), p.2)) := by
    rw [generateSines_thetas, generateSines_frequencies]
    exact zip_map_fst _ st.thetas st.frequencies
  constructor
  · rw [generateSines_fst, generateSines_fst, generateSines_fst, hzip]
    simp only [generateSines_amplitude, dtheta_generateSines]
    rw [List.range_add, List.flatMap_append, List.flatMap_map]
    apply congrArg
    apply congrArg
    funext i
    rw [List.map_map]
    apply List.map_congr_left
    intro p _
    show (st.amplitude : ℝ)
          * Real.sin (pymod (p.1 + n1 * dtheta st p.2) (2 * π) + i * dtheta st p.2)
        = (st.amplitude : ℝ) * Real.sin (p.1 + ((n1 + i : ℕ) : ℝ) * dtheta st p.2)
    push_cast
    rw [sin_phase_acc]
  · apply GenState.ext <;>
      first
      | rfl
      | · rw [generateSines_thetas ((generateSines st n1).2) n2,
            generateSines_thetas st (n1 + n2), hzip]
          simp only [dtheta_generateSines]
          rw [List.map_map]
          apply List.map_congr_left
          intro p _
          show pymod (pymod (p.1 + n1 * dtheta st p.2) (2 * π)
                + n2 * dtheta st p.2) (2 * π)
              = pymod (p.1 + ((n1 + n2 : ℕ) : ℝ) * dtheta st p.2) (2 * π)
          push_cast
          rw [pymod_phase_acc]

/-- C9: after a call of `_generate_sines` or `_generate_clean_samples`
every per-channel phase accumulator lies in `[0, 2π)`: the update wraps
the accumulated angle modulo `2π`, so repeated generation never lets a
stored phase grow without bound. -/
theorem phase_accumulators_wrapped (st : GenState) (n : ℕ) :
    (∀ x ∈ (generateSines st n).2.thetas, 0 ≤ x ∧ x < 2 * π)
    ∧ (∀ x ∈ (generateCleanSamples st n).2.thetas, 0 ≤ x ∧ x < 2 * π) := by
  constructor <;>
  · intro x hx
    first
    | rw [generateSines_thetas] at hx
    | rw [generateCleanSamples_thetas] at hx
    obtain ⟨p, -, rfl⟩ := List.mem_map.mp hx
    exact ⟨pymod_nonneg Real.two_pi_pos _, pymod_lt Real.two_pi_pos _⟩

/-- Witness for C9 at a concrete state and block size. -/
theorem phase_accumulators_wrapped_witness :
    0 ≤ pymod ((0 : ℝ) + ((1 : ℕ) : ℝ) * dtheta sampleState 440) (2 * π)
    ∧ pymod ((0 : ℝ) + ((1 : ℕ) : ℝ) * dtheta sampleState 440) (2 * π) < 2 * π :=
  (phase_accumulators_wrapped sampleState 1).1 _ (List.mem_singleton.mpr rfl)

/-- C8: calling `start` a second time without an intervening `stop`,
while the thread spawned by the first call is still alive, raises
`AlreadyRunning` and leaves the state (hence the running loop)
untouched. -/
theorem start_twice_already_running (st : GenState) (b1 b2 : Option Bool)
    (h : st.audio_thread ≠ some true) :
    (start b1 st).1 = Except.ok ()
    ∧ (start b1 st).2.audio_thread = some true
    ∧ start b2 (start b1 st).2
        = (Except.error PyError.alreadyRunning, (start b1 st).2) := by
  cases b1 <;> simp [start, h]

/-- Witness for C8 at a concrete idle state. -/
theorem start_twice_already_running_witness :
    (start none sampleState).1 = Except.ok ()
    ∧ (start none sampleState).2.audio_thread = some true
    ∧ start none (start none sampleState).2
        = (Except.error PyError.alreadyRunning, (start none sampleState).2) :=
  start_twice_already_running sampleState none none (by decide)

/-- C6 counterexample: a frequency exactly equal to the Nyquist limit
is ACCEPTED by the code (the check is strict `freq > sample_rate / 2`):
constructing with `frequencies=[4000]` at `sample_rate=8000` succeeds,
and so does mutating to `[4000]`, contradicting the claim that a
frequency equal to `sample_rate/2` is rejected. -/
theorem nyquist_frequency_accepted :
    (init 8000 (some [4000]) 1 (1/2) 32 1024 GlitchType.NONE 10 true false
        (1/2, 2) 0).isOk = true
    ∧ (set_frequencies [4000] { sampleState with sample_rate := 8000 }).1
        = Except.ok ()
    ∧ (4000 : ℚ) = 8000 / 2 := by
  refine ⟨?_, ?_, by norm_num⟩
  · simp only [init, checkFrequencies, setNextGlitchInterval, Except.isOk,
      Except.toBool]
    norm_num
  · simp only [set_frequencies, checkFrequencies, sampleState]
    norm_num

/-- C6 amended: frequency validation (shared by `__init__` and
`set_frequencies`) raises `InvalidParameter` exactly when some supplied
frequency is non-positive or STRICTLY exceeds the Nyquist limit
`sample_rate / 2`; `[440]` at 8000 Hz is accepted and `[5000]` at
8000 Hz is rejected, while a frequency exactly at the Nyquist limit is
accepted. -/
theorem frequency_validation_iff (rate : ℚ) (fs : List ℚ) :
    (checkFrequencies rate fs = Except.error PyError.invalidParameter
      ↔ ∃ f ∈ fs, f ≤ 0 ∨ f > rate / 2)
    ∧ (init 8000 (some [440]) 1 (1/2) 32 1024 GlitchType.NONE 10 true false
        (1/2, 2) 0).isOk = true
    ∧ init 8000 (some [5000]) 1 (1/2) 32 1024 GlitchType.NONE 10 true false
        (1/2, 2) 0 = Except.error PyError.invalidParameter := by
  refine ⟨?_, ?_, ?_⟩
  case refine_2 =>
    simp only [init, checkFrequencies, setNextGlitchInterval, Except.isOk,
      Except.toBool]
    norm_num
  case refine_3 =>
    simp only [init, checkFrequencies]
    norm_num
  induction fs with
  | nil => simp [checkFrequencies]
  | cons f rest ih =>
      by_cases h1 : f ≤ 0
      · simp [checkFrequencies, h1]
      · by_cases h2 : f > rate / 2
        · simp [checkFrequencies, h1, h2]
        · simp [checkFrequencies, h1, h2, ih]

/-- Witness for C6 (amended) at a concrete rate and frequency list. -/
theorem frequency_validation_iff_witness :
    checkFrequencies 8000 [5000] = Except.error PyError.invalidParameter :=
  (frequency_validation_iff 8000 [5000]).1.mpr
    ⟨5000, by simp, Or.inr (by norm_num)⟩

/-- C2 counterexample: a generator constructed with `frequencies=[440]`
(one channel) accepts `set_frequencies([440, 880])`, after which
`channels` is still `1` while the frequency list has length `2` — the
invariant `channels == len(frequencies)` is NOT preserved by
`set_frequencies`. -/
theorem set_frequencies_breaks_channel_invariant :
    (init 48000 (some [440]) 1 (1/2) 32 4 GlitchType.NONE 2 true false
        (1/2, 2) 0).map
      (fun st => ((set_frequencies [440, 880] st).1,
        (set_frequencies [440, 880] st).2.channels,
        (set_frequencies [440, 880] st).2.frequencies.length))
      = Except.ok (Except.ok (), 1, 2) := by
  simp only [init, checkFrequencies, setNextGlitchInterval, Except.map,
    set_frequencies]
  norm_num

/-- C2 amended: construction-time normalization establishes
`channels == len(frequencies)`, but `set_frequencies` never updates
`channels` (it only replaces the list and resets the phases), so the
invariant survives a `set_frequencies` call exactly when the new list
has the same length as the old channel count. -/
theorem channel_count_normalization
    (rate : ℚ) (freqs : Option (List ℚ)) (ch : ℕ) (amp : ℚ) (bd cs : ℕ)
    (gt : GlitchType) (gs : ℕ) (bl rgi : Bool) (gir : ℚ × ℚ) (r : ℚ)
    (st : GenState)
    (h : init rate freqs ch amp bd cs gt gs bl rgi gir r = Except.ok st) :
    st.channels = st.frequencies.length
    ∧ (∀ fs st2, (set_frequencies fs st2).2.channels = st2.channels)
    ∧ (∀ fs st2, (set_frequencies fs st2).1 = Except.ok ()
        → (set_frequencies fs st2).2.frequencies = fs) := by
  refine ⟨?_, ?_, ?_⟩
  · simp only [init] at h
    repeat' split at h
    all_goals first
    | exact Except.noConfusion h
    | (injection h with h
       subst h
       simp only [setNextGlitchInterval_channels, setNextGlitchInterval_frequencies]
       try simp_all)
  · intro fs st2
    unfold set_frequencies
    split <;> rfl
  · intro fs st2 hok
    unfold set_frequencies at hok ⊢
    split at hok <;> simp_all

/-- Witness for C2 (amended) at a concrete construction. -/
theorem channel_count_normalization_witness :
    sampleState.channels = sampleState.frequencies.length
    ∧ (set_frequencies [440, 880] sampleState).2.channels
        = sampleState.channels
    ∧ (set_frequencies [440, 880] sampleState).2.frequencies
        = [440, 880] := by
  have h := channel_count_normalization 48000 (some [440]) 1 (1/2) 32 4
    GlitchType.NONE 2 true false (1/2, 2) 0 sampleState
    (by simp only [init, checkFrequencies, setNextGlitchInterval, sampleState]
        norm_num [pyInt])
  exact ⟨h.1, h.2.1 [440, 880] sampleState,
    h.2.2 [440, 880] sampleState
      (by simp only [set_frequencies, checkFrequencies, sampleState]
          norm_num)⟩

/-- C3 (code evaluated at the failing input): with `channels=1`,
`glitch_size=3` and `chunk_size=2`, a firing SKIP glitch raises a numpy
broadcast `ValueError` (assigning `k*C = 3` synthesized samples to the
clamped slice `interleaved_chunk[-3:]` of length `2`) instead of
clamping to the block length. -/
theorem skip_glitch_oversize_broadcast_error :
    (generateChunk 0
        { sampleState with
          glitch_type := GlitchType.SKIP
          glitch_size := 3
          chunk_size := 2
          next_glitch_chunks := 0 }).1
      = Except.error PyError.broadcastError := rfl

/-- C4: when the SKIP glitch fires (with `k*C` not exceeding the block
length, which otherwise raises), the returned block still has
`chunk_size * channels` interleaved samples, and the phase accumulators
have advanced by `(chunk_size + glitch_size)` samples worth of phase
per channel instead of `chunk_size`. -/
theorem skip_glitch_preserves_length_and_skips_phase (rand : ℚ) (st : GenState)
    (hfire : st.glitch_timer ≥ st.next_glitch_chunks)
    (htype : st.glitch_type = GlitchType.SKIP)
    (hθ : st.thetas.length = st.frequencies.length)
    (hch : st.channels = st.frequencies.length)
    (hk : 0 < st.glitch_size)
    (hc : 0 < st.channels)
    (hkcs : st.glitch_size ≤ st.chunk_size) :
    (∃ out, (generateChunk rand st).1 = Except.ok out
        ∧ out.length = st.chunk_size * st.channels)
    ∧ (generateChunk rand st).2.thetas
        = (st.thetas.zip st.frequencies).map
            (fun p => pymod (p.1 + ((st.chunk_size : ℝ) + (st.glitch_size : ℝ))
              * dtheta st p.2) (2 * π)) := by
  have hFL0 : st.frequencies.length ≠ 0 := by
    rw [← hch]
    exact hc.ne'
  simp only [generateChunk]
  set st1 : GenState := (generateSines st st.chunk_size).2 with hst1
  set chunk : List ℝ := (generateSines st st.chunk_size).1 with hchunkdef
  set st2 : GenState := setNextGlitchInterval rand { st1 with glitch_timer := 0 }
    with hst2
  set res2 : List ℝ × GenState := generateSines st2 st2.glitch_size with hres2
  have hfire1 : st1.glitch_timer ≥ st1.next_glitch_chunks := by
    rw [hst1]
    simpa using hfire
  have hty2 : st2.glitch_type = GlitchType.SKIP := by
    rw [hst2]
    simp [hst1, htype]
  have hch2 : st2.channels = st.channels := by
    rw [hst2]
    simp [hst1]
  have hgs2 : st2.glitch_size = st.glitch_size := by
    rw [hst2]
    simp [hst1]
  have hst2θ : st2.thetas = st1.thetas := by
    rw [hst2]
    simp
  have hst2f : st2.frequencies = st.frequencies := by
    rw [hst2]
    simp [hst1]
  have hst1θlen : st1.thetas.length = st.frequencies.length := by
    rw [hst1, generateSines_thetas]
    simp [List.length_zip, hθ]
  have hNlen : chunk.length = st.chunk_size * st.frequencies.length := by
    rw [hchunkdef, generateSines_length, List.length_zip, hθ, min_self]
  have hmlen : res2.1.length = st.glitch_size * st.frequencies.length := by
    rw [hres2, generateSines_length, hgs2]
    congr 1
    rw [List.length_zip, hst2θ, hst2f, hst1θlen, min_self]
  have hmn0 : st.glitch_size * st.frequencies.length ≠ 0 :=
    Nat.mul_ne_zero hk.ne' hFL0
  have hle : st.glitch_size * st.frequencies.length
      ≤ st.chunk_size * st.frequencies.length :=
    Nat.mul_le_mul_right _ hkcs
  split
  case isFalse h => exact absurd hfire1 h
  case isTrue _ =>
    split
    case h_1 heq => rw [hty2] at heq; exact GlitchType.noConfusion heq
    case h_3 heq => rw [hty2] at heq; exact GlitchType.noConfusion heq
    case h_4 heq => rw [hty2] at heq; exact GlitchType.noConfusion heq
    case h_2 _ =>
      split
      case isTrue h1 =>
        rw [hch2, hgs2] at h1
        exact absurd h1.1 (Nat.mul_ne_zero hc.ne' hk.ne')
      case isFalse _ =>
        rw [hmlen, hNlen, if_neg hmn0, min_eq_left hle, if_pos rfl]
        constructor
        · refine ⟨_, rfl, ?_⟩
          simp only [List.length_append, List.length_take, List.length_drop]
          rw [hch2, hgs2, hch, Nat.mul_comm st.frequencies.length st.glitch_size]
          set A := st.chunk_size * st.frequencies.length with hA
          set B := st.glitch_size * st.frequencies.length with hB
          omega
        · show res2.2.thetas = List.map
            (fun p => pymod (p.1 + ((st.chunk_size : ℝ) + (st.glitch_size : ℝ))
              * dtheta st p.2) (2 * π)) (st.thetas.zip st.frequencies)
          have hcongr := (@generateSines_congr st2 st1
            st.glitch_size hst2θ
            (by rw [hst2, hst1]; simp)
            (by rw [hst2, hst1]; simp)
            (by rw [hst2, hst1]; simp)).2
          rw [hres2, hgs2, hcongr, hst1, generateSines_twice_thetas]

/-- Witness for C4 at a concrete state (2 samples skipped out of a
4-sample block, one channel): the phase accumulator ends up advanced by
6 samples worth of phase. -/
theorem skip_glitch_phase_witness :
    (generateChunk 0 skipState).2.thetas
      = (skipState.thetas.zip skipState.frequencies).map
          (fun p => pymod (p.1 + ((skipState.chunk_size : ℝ)
            + (skipState.glitch_size : ℝ)) * dtheta skipState p.2)
            (2 * π)) :=
  (skip_glitch_preserves_length_and_skips_phase 0 skipState (by decide) rfl
    rfl rfl (by decide) (by decide) (by decide)).2

/-- C7: when the FULLSCALE glitch fires on a nonempty block whose first
pre-glitch sample is `x`, the first `k*C` interleaved samples of the
returned block all equal `-1.0` if `x ≥ 0` and `+1.0` otherwise —
maximum magnitude with sign opposite the first pre-glitch sample. -/
theorem fullscale_glitch_forces_opposite_extreme (rand : ℚ) (st : GenState)
    (x : ℝ) (rest : List ℝ)
    (hfire : st.glitch_timer ≥ st.next_glitch_chunks)
    (htype : st.glitch_type = GlitchType.FULLSCALE)
    (hchunk : (generateSines st st.chunk_size).1 = x :: rest)
    (hsize : st.channels * st.glitch_size ≤ (x :: rest).length) :
    (generateChunk rand st).1
      = Except.ok (overwriteFirst (x :: rest) (st.channels * st.glitch_size)
          (if 0 ≤ x then -1 else 1))
    ∧ ∀ j, j < st.channels * st.glitch_size →
        (overwriteFirst (x :: rest) (st.channels * st.glitch_size)
          (if 0 ≤ x then -1 else 1)).getD j 0 = if 0 ≤ x then -1 else 1 := by
  constructor
  · simp only [generateChunk]
    set st1 : GenState := (generateSines st st.chunk_size).2 with hst1
    set chunk : List ℝ := (generateSines st st.chunk_size).1 with hchunkdef
    set st2 : GenState :=
      setNextGlitchInterval rand { st1 with glitch_timer := 0 } with hst2
    have hfire1 : st1.glitch_timer ≥ st1.next_glitch_chunks := by
      rw [hst1]
      simpa using hfire
    have hty2 : st2.glitch_type = GlitchType.FULLSCALE := by
      rw [hst2]
      simp [hst1, htype]
    have hch2 : st2.channels = st.channels := by
      rw [hst2]
      simp [hst1]
    have hgs2 : st2.glitch_size = st.glitch_size := by
      rw [hst2]
      simp [hst1]
    split
    case isFalse h => exact absurd hfire1 h
    case isTrue _ =>
      split
      case h_1 heq => rw [hty2] at heq; exact GlitchType.noConfusion heq
      case h_2 heq => rw [hty2] at heq; exact GlitchType.noConfusion heq
      case h_4 heq => rw [hty2] at heq; exact GlitchType.noConfusion heq
      case h_3 _ =>
        rw [hchunk, hch2, hgs2]
  · intro j hj
    apply overwriteFirst_getD
    rw [min_eq_left hsize]
    exact hj

/-- Witness for C7 at a concrete firing state. -/
theorem fullscale_glitch_witness :
    (generateChunk 0 fullscaleState).1
      = Except.ok (overwriteFirst
          ((fullscaleState.amplitude : ℝ)
              * Real.sin ((0 : ℝ) + ((0 : ℕ) : ℝ) * dtheta fullscaleState 440)
            :: [])
          (fullscaleState.channels * fullscaleState.glitch_size)
          (if 0 ≤ (fullscaleState.amplitude : ℝ)
              * Real.sin ((0 : ℝ) + ((0 : ℕ) : ℝ) * dtheta fullscaleState 440)
            then -1 else 1))
    ∧ (overwriteFirst
          ((fullscaleState.amplitude : ℝ)
              * Real.sin ((0 : ℝ) + ((0 : ℕ) : ℝ) * dtheta fullscaleState 440)
            :: [])
          (fullscaleState.channels * fullscaleState.glitch_size)
          (if 0 ≤ (fullscaleState.amplitude : ℝ)
              * Real.sin ((0 : ℝ) + ((0 : ℕ) : ℝ) * dtheta fullscaleState 440)
            then -1 else 1)).getD 0 0
        = if 0 ≤ (fullscaleState.amplitude : ℝ)
              * Real.sin ((0 : ℝ) + ((0 : ℕ) : ℝ) * dtheta fullscaleState 440)
            then -1 else 1 := by
  have h := fullscale_glitch_forces_opposite_extreme 0 fullscaleState
    ((fullscaleState.amplitude : ℝ)
      * Real.sin ((0 : ℝ) + ((0 : ℕ) : ℝ) * dtheta fullscaleState 440)) []
    (by decide) rfl rfl (by decide)
  exact ⟨h.1, h.2 0 (by decide)⟩

/-- C10: `save_to_wav` leaves the whole configuration — `chunk_size`
included — unchanged after it returns, for every duration (also when
the final partial block temporarily overrides `chunk_size`, and also
when generation raises: the `try/finally` restores it on every path).
Only the phase accumulators and the glitch countdown state may
change. -/
theorem save_to_wav_preserves_config (randSeq : ℕ → ℚ) (d : ℤ)
    (st : GenState) : cfg (save_to_wav randSeq d st).2 = cfg st := by
  simp only [save_to_wav]
  split
  · rfl
  · split
    · rfl
    · exact cfg_generateSamplesWithGlitches randSeq st _

/-- C5: for a generator built with `sample_rate=48000, chunk_size=1024,
channels=2` (two frequencies), a fixed 1.0 s interval and a DROPOUT
glitch of `size=100`, the block stream is periodic with period
`ceil(48000/1024) = 47`: block `i` has its first
`2 * 100 = 200` interleaved samples set to `0.0` exactly (and the rest
is the untouched sine output) precisely when `i % 47 = 46`, so exactly
one block out of every 47 consecutive blocks is the glitch block; all
other blocks are unmodified sine output. -/
theorem dropout_glitch_periodicity (f1 f2 amp : ℚ) (b : Bool)
    (randSeq : ℕ → ℚ) (st0 : GenState)
    (hinit : init 48000 (some [f1, f2]) 2 amp 32 1024 GlitchType.DROPOUT 100
        b false (1/2, 2) 0 = Except.ok st0) (i : ℕ) :
    (i % 47 = 46 → blockAt randSeq st0 i
        = Except.ok (overwriteFirst (cleanBlock st0 i) 200 0))
    ∧ (i % 47 ≠ 46 → blockAt randSeq st0 i = Except.ok (cleanBlock st0 i))
    ∧ (overwriteFirst (cleanBlock st0 i) 200 0).take 200
        = List.replicate 200 (0 : ℝ) := by
  simp only [init] at hinit
  repeat' split at hinit
  all_goals try exact Except.noConfusion hinit
  all_goals injection hinit with hS
  all_goals
    have hty : st0.glitch_type = GlitchType.DROPOUT := by rw [← hS]; simp
    have hrand : st0.random_glitch_interval = false := by rw [← hS]; simp
    have htimer : st0.glitch_timer = 0 := by rw [← hS]; simp
    have hbase : st0.base_glitch_interval_chunks = 46 := by
      rw [← hS]
      norm_num [pyInt]
    have hnext : st0.next_glitch_chunks = 46 := by
      rw [← hS, setNextGlitchInterval_fixed _ _ (by simp)]
      norm_num [pyInt]
    have hch : st0.channels = 2 := by rw [← hS]; simp
    have hgs : st0.glitch_size = 100 := by rw [← hS]; simp
    have hcs : st0.chunk_size = 1024 := by rw [← hS]; simp
    have hfr : st0.frequencies = [f1, f2] := by rw [← hS]; simp
    have hθf : st0.thetas.length = st0.frequencies.length := by
      rw [← hS]
      simp
    have hblocks := dropout_blockAt randSeq st0 hty hrand htimer hnext hbase i
    have h200 : st0.channels * st0.glitch_size = 200 := by
      rw [hch, hgs]
    refine ⟨?_, hblocks.2, ?_⟩
    · intro hmod
      have h2 := hblocks.1 hmod
      rw [h200] at h2
      exact h2
    · have hlen : (cleanBlock st0 i).length = 2048 := by
        show (generateSines (cleanState st0 i)
          (cleanState st0 i).chunk_size).1.length = 2048
        obtain ⟨-, -, -, -, -, -, -, hcsi, hfri⟩ := cleanState_fields st0 i
        rw [generateSines_length, hcsi, hcs, List.length_zip,
          cleanState_thetas_len st0 hθf i, hfri, hfr]
        norm_num
      simp only [overwriteFirst, hlen]
      norm_num

/-- Witness for C5 at the concrete construction and the first glitch
block (index 46). -/
theorem dropout_glitch_periodicity_witness :
    blockAt (fun _ => 0) dropoutState 46
        = Except.ok (overwriteFirst (cleanBlock dropoutState 46) 200 0)
    ∧ (overwriteFirst (cleanBlock dropoutState 46) 200 0).take 200
        = List.replicate 200 (0 : ℝ) := by
  have h := dropout_glitch_periodicity 440 880 (1/2) true (fun _ => 0)
    dropoutState
    (by simp only [init, checkFrequencies, setNextGlitchInterval, dropoutState]
        norm_num [pyInt])
    46
  exact ⟨h.1 (by norm_num), h.2.2⟩

end Claims

end SWG
